import Mathlib

/-!
Verification of the training-loop core of `prevision_quantum_nn`
(`models/pennylane_backend/qnn_pennylane.py`) against its design
specification.  The Python code is shallowly embedded: scalars are exact
rationals (serialization and control flow do no rounding of their own, and
every claim checked here is about control flow, data routing or exact
algebraic form, not float rounding); external numeric library functions
(the quantum circuit `neural_network`, `np.exp`, `np.log`, the optimizers,
`get_gradient` / `tape.gradient`) are taken as function parameters, exactly
as the source treats them as black boxes.
-/

namespace PQNN

/-- Problem tags: the five values `type_problem` ranges over
(spec section 3; dispatched on in `cost`, `predict`, `predict_proba`). -/
inductive TypeProblem
  | regression
  | classification
  | multiclassification
  | reinforcement_learning
  | descriptor_computation
  deriving DecidableEq, Repr

/-- Differentiation interface of the pennylane backend
(`qnn_pennylane.py` line 62): `"autograd"` or `"tf"`. -/
inductive Interface
  | autograd
  | tf
  deriving DecidableEq, Repr

/-- Architecture tag consulted by `snapshot` / `load_weights`
(`self.architecture == "cv"` versus the qubit architecture). -/
inductive Architecture
  | cv
  | qubit
  deriving DecidableEq, Repr

/-- Runtime failure of a Python call, at the granularity the error-handling
claims need: a controlled `raise ValueError(msg)` (the spec's
`ConfigurationError` class) versus an uncontrolled `UnboundLocalError`
from reaching a `return x` with local `x` never assigned. -/
inductive PyError
  | valueError (msg : String)
  | unboundLocal (v : String)
  deriving DecidableEq, Repr

/-- Decides whether a call outcome is a controlled `raise ValueError`. -/
def raisedValueError {α : Type} : Except PyError α → Bool
  | .error (.valueError _) => true
  | _ => false

/-! ## Layer-wise schedule (`step`, autograd layer-wise branch) -/

/-- Code of `step`, layer-wise branch (`qnn_pennylane.py` line 231):
`i = (self.iteration // 20) % self.num_layers` — the index of the layer made
differentiable this step.  The divisor is the literal `20`; the
`layerwise_learning_period` attribute stored by `__init__` (lines 72-73) is
not consulted. -/
def selectedLayer (iteration num_layers : ℕ) : ℕ :=
  (iteration / 20) % num_layers

/-- Code of `step`, layer-wise branch (lines 236-240): the `requires_grad`
flags written onto the per-layer arrays before the optimizer step — `True`
exactly at the selected layer, `False` (gradient contribution forced to
zero) at every other index `j`. -/
def requiresGradFlags (iteration num_layers len : ℕ) : List Bool :=
  (List.range len).map (fun j => j == selectedLayer iteration num_layers)

/-- Modelled from the spec: the schedule the specification states,
`(iteration // period) mod num_layers` where `period` is the configured
`layerwise_learning_period`.  Given a distinct name for comparison with
`selectedLayer`, which is what the code computes. -/
def selectedLayer_spec (iteration period num_layers : ℕ) : ℕ :=
  (iteration / period) % num_layers

/-! ## Parameter state and the snapshot round-trip -/

/-- Parameter state `self.var`: either one multi-dimensional array (modelled
by its ordered first-axis slices, each slice flattened to its scalars), or
an ordered sequence of per-layer arrays (layer-wise / CV shapes).  Scalars
are exact: `np.savez` / `np.load` copy array contents verbatim. -/
inductive VarState
  | single (rows : List (List ℚ))
  | multi (layers : List (List ℚ))
  deriving DecidableEq, Repr

/-- Iterating — or `*`-unpacking — a parameter state in Python: a single
array yields its first-axis slices, a list yields its elements. -/
def VarState.iter : VarState → List (List ℚ)
  | .single rows => rows
  | .multi layers => layers

/-- All scalar entries of a parameter state, in storage order. -/
def VarState.elems (v : VarState) : List ℚ :=
  v.iter.flatten

/-- Code of `snapshot` (`qnn_pennylane.py` lines 139-155): the ordered list
of arrays that `np.savez(current_file, *tosave)` writes into the archive.
For tf/cv, `tosave = [v.numpy() for v in self.var]` iterates the per-layer
variables; for tf/qubit `tosave` is the single array `self.var.numpy()` and
for autograd it is `self.var` itself, and in both of those cases the `*`
unpacking splits the value into its first-axis slices. -/
def snapshotPayload (itf : Interface) (arch : Architecture) (var : VarState) :
    List (List ℚ) :=
  let tosave : List (List ℚ) :=
    match itf, arch with
    | .tf, .cv => var.iter
    | .tf, .qubit => var.iter
    | .autograd, _ => var.iter
  tosave

/-- Code of `load_weights` (lines 157-173): the arrays of the archive are
read back in insertion order into `weights_list`; with the tf interface the
result is wrapped — per-layer `tf.Variable`s for cv, one stacked
`tf.Variable(weights_list)` otherwise — while with autograd `self.var` is
left as the plain list. -/
def load_weights (itf : Interface) (arch : Architecture)
    (payload : List (List ℚ)) : VarState :=
  let weights_list := payload
  match itf, arch with
  | .tf, .cv => .multi weights_list
  | .tf, .qubit => .single weights_list
  | .autograd, _ => .multi weights_list

/-! ## Theorems for C1 and C2 -/

/-- Claim C1 (failing input): the code selects layer `(iteration // 20) %
num_layers`, so with `num_layers = 3` every iteration below 20 trains layer
0, and the schedule over iterations 0..14 is constantly 0 — not the claimed
`[0,0,0,0,0,1,1,1,1,1,2,2,2,2,2]` that the configured period 5 would give.
At iteration 5 the code keeps layer 0 differentiable and freezes layer 1,
where the claim requires layer 1 to be the differentiable one. -/
theorem C1_layerwise_schedule_ignores_period :
    ((List.range 15).map (fun it => selectedLayer it 3) =
      List.replicate 15 0) ∧
    ((List.range 15).map (fun it => selectedLayer_spec it 5 3) =
      [0, 0, 0, 0, 0, 1, 1, 1, 1, 1, 2, 2, 2, 2, 2]) ∧
    selectedLayer 5 3 ≠ selectedLayer_spec 5 5 3 ∧
    requiresGradFlags 5 3 3 = [true, false, false] := by
  decide

/-- Claim C2: loading the archive written by `snapshot` restores the
parameter state elementwise, for every interface, architecture and shape;
moreover whenever the state is an ordered sequence of per-layer arrays the
autograd and tf/cv paths restore it exactly, and the tf/qubit path restores
a single array exactly. -/
theorem C2_snapshot_load_roundtrip :
    (∀ (itf : Interface) (arch : Architecture) (var : VarState),
      (load_weights itf arch (snapshotPayload itf arch var)).elems =
        var.elems) ∧
    (∀ layers : List (List ℚ),
      load_weights .autograd .qubit
          (snapshotPayload .autograd .qubit (.multi layers)) =
        .multi layers ∧
      load_weights .tf .cv (snapshotPayload .tf .cv (.multi layers)) =
        .multi layers) ∧
    (∀ rows : List (List ℚ),
      load_weights .tf .qubit
          (snapshotPayload .tf .qubit (.single rows)) =
        .single rows) := by
  refine ⟨fun itf arch var => ?_, fun layers => ⟨rfl, rfl⟩, fun rows => rfl⟩
  cases itf <;> cases arch <;> cases var <;> rfl

/-! ## Cost evaluator (`cost`, lines 175-217) -/

/-- Mean of a list of scalars (`np.mean` / `tf.math.reduce_mean`). -/
def mean (l : List ℚ) : ℚ :=
  l.sum / l.length

/-- Modelled from the spec: `square_loss` from the utilities losses module,
which is not under src/ — mean squared error between labels and raw
outputs. -/
def square_loss (labels model_output : List (List ℚ)) : ℚ :=
  mean ((labels.flatten.zip model_output.flatten).map
    (fun p => (p.1 - p.2) ^ 2))

/-- Modelled from the spec: `cross_entropy` from the utilities losses module,
which is not under src/ — categorical cross-entropy of predicted
probabilities against one-hot labels, with `np.log` abstracted as `log`. -/
def cross_entropy (log : ℚ → ℚ) (labels preds : List (List ℚ)) : ℚ :=
  -mean ((labels.zip preds).map
    (fun p => ((p.1.zip p.2).map (fun q => q.1 * log q.2)).sum))

/-- Row-wise softmax, `np.exp(out) / np.sum(np.exp(out), axis=1)[:, None]`
(also `tf.nn.softmax`), with `np.exp` abstracted as `exp`. -/
def softmaxRow (exp : ℚ → ℚ) (row : List ℚ) : List ℚ :=
  let e := row.map exp
  e.map (fun x => x / e.sum)

/-- Code of `cost`, tf branch: `tf.math.reduce_mean(tf.losses.MSE(labels,
model_output))` — per-sample mean squared error over the last axis, then the
mean over samples. -/
def tf_mse_mean (labels model_output : List (List ℚ)) : ℚ :=
  mean ((labels.zip model_output).map
    (fun p => mean ((p.1.zip p.2).map (fun q => (q.1 - q.2) ^ 2))))

/-- Code of `cost`, tf multiclassification branch:
`tf.reduce_mean(tf.nn.softmax_cross_entropy_with_logits(labels,
model_output))` — per-sample cross-entropy of the softmaxed logits against
the labels, then the mean over samples. -/
def tf_softmax_cross_entropy (exp log : ℚ → ℚ)
    (labels model_output : List (List ℚ)) : ℚ :=
  mean ((labels.zip model_output).map
    (fun p =>
      -((p.1.zip (softmaxRow exp p.2)).map (fun q => q.1 * log q.2)).sum))

/-- Code of `cost` (`qnn_pennylane.py` lines 175-217).  `model_output` is the
per-sample circuit evaluation; the loss is then selected by a chain of `if`s
on `(interface, type_problem)`.  No branch matches
`descriptor_computation` (under either interface), so control reaches
`return loss` with the local `loss` never assigned — an uncontrolled
`UnboundLocalError`, not a raised error.  In the autograd
reinforcement-learning branch the source wraps `square_loss` in `np.mean`,
which is the identity on the already-scalar loss modelled here. -/
def cost {V F : Type} (itf : Interface) (tp : TypeProblem)
    (exp log : ℚ → ℚ) (nn : V → F → List ℚ)
    (features : List F) (labels : List (List ℚ)) (var : V) :
    Except PyError ℚ :=
  let model_output := features.map (fun x => nn var x)
  match itf, tp with
  | .autograd, .regression => .ok (square_loss labels model_output)
  | .autograd, .classification => .ok (square_loss labels model_output)
  | .autograd, .multiclassification =>
    .ok (cross_entropy log labels (model_output.map (softmaxRow exp)))
  | .autograd, .reinforcement_learning =>
    .ok (square_loss labels model_output)
  | .tf, .regression => .ok (tf_mse_mean labels model_output)
  | .tf, .classification => .ok (tf_mse_mean labels model_output)
  | .tf, .multiclassification =>
    .ok (tf_softmax_cross_entropy exp log labels model_output)
  | .tf, .reinforcement_learning => .ok (tf_mse_mean labels model_output)
  | _, .descriptor_computation => .error (.unboundLocal "loss")

/-! ## Prediction (`predict`, lines 379-399; `predict_proba`, lines 401-431) -/

/-- Output of `predict`: an elementwise numeric array (thresholded labels
for classification, raw evaluations otherwise) or per-sample argmax indices
(multiclassification). -/
inductive PredictOut
  | arr (a : List (List ℚ))
  | indices (l : List ℕ)
  deriving DecidableEq, Repr

/-- Index of the first maximal entry of a row (`np.argmax`). -/
def argmaxIdx (row : List ℚ) : ℕ :=
  (List.range row.length).foldl
    (fun best j => if row.getD best 0 < row.getD j 0 then j else best) 0

/-- Code of `predict` (lines 379-399): classification thresholds the raw
output elementwise at 0 (`np.where(model_output > 0., 1, 0)`),
multiclassification softmaxes each row and takes the argmax, and every
other problem type returns the raw per-sample evaluations unchanged. -/
def predict {V F : Type} (tp : TypeProblem) (exp : ℚ → ℚ)
    (nn : V → F → List ℚ) (var : V) (features : List F) : PredictOut :=
  let model_output := features.map (fun x => nn var x)
  match tp with
  | .classification =>
    .arr (model_output.map (fun row =>
      row.map (fun x => if 0 < x then 1 else 0)))
  | .multiclassification =>
    .indices ((model_output.map (softmaxRow exp)).map argmaxIdx)
  | _ => .arr model_output

/-- Message of the `ValueError` raised by `predict_proba` (lines 427-429). -/
def predictProbaMsg : String :=
  "Cannot predict probabilities when type_problem is set to: " ++
  "regression or reinforcement_learning"

/-- Code of `predict_proba` (lines 401-431): classification returns
`0.5 + 0.5 * model_output` elementwise; multiclassification softmaxes each
row (`np.exp` normalization under autograd, `tf.nn.softmax` under tf — the
same formula); regression and reinforcement_learning raise a `ValueError`;
and `descriptor_computation` matches no branch, reaching
`return predicted_probabilities` with that local never assigned. -/
def predict_proba {V F : Type} (tp : TypeProblem) (itf : Interface)
    (exp : ℚ → ℚ) (nn : V → F → List ℚ) (var : V) (features : List F) :
    Except PyError (List (List ℚ)) :=
  let model_output := features.map (fun x => nn var x)
  match tp with
  | .classification =>
    .ok (model_output.map (fun row => row.map (fun o => 1/2 + 1/2 * o)))
  | .multiclassification =>
    match itf with
    | .autograd => .ok (model_output.map (softmaxRow exp))
    | .tf => .ok (model_output.map (softmaxRow exp))
  | .regression => .error (.valueError predictProbaMsg)
  | .reinforcement_learning => .error (.valueError predictProbaMsg)
  | .descriptor_computation => .error (.unboundLocal "predicted_probabilities")

/-! ## Theorems for C3, C8, C9, C10 -/

/-- Claim C3 (counterexample): at the concrete call
`cost autograd descriptor_computation` the code fails with the uncontrolled
`UnboundLocalError` on `loss`, not with a raised configuration error. -/
theorem C3_counterexample_cost_descriptor_not_config_error :
    cost .autograd .descriptor_computation id id
        (fun (_ : Unit) (_ : ℚ) => [1]) [0] [[0]] () =
      .error (.unboundLocal "loss") ∧
    raisedValueError (cost .autograd .descriptor_computation id id
        (fun (_ : Unit) (_ : ℚ) => [1]) [0] [[0]] ()) = false := by
  exact ⟨rfl, rfl⟩

/-- Claim C3 (amended): for a `type_problem` with no matching branch in the
active differentiation interface — `descriptor_computation`, under either
interface — `cost` fails at call time with an uncontrolled
`UnboundLocalError` on the local `loss`, not with a raised
`ConfigurationError`. -/
theorem C3_cost_descriptor_unbound_local {V F : Type} (itf : Interface)
    (exp log : ℚ → ℚ) (nn : V → F → List ℚ)
    (features : List F) (labels : List (List ℚ)) (var : V) :
    cost itf .descriptor_computation exp log nn features labels var =
      .error (.unboundLocal "loss") := by
  cases itf <;> rfl

/-- Claim C8: for `type_problem` regression or reinforcement_learning,
`predict_proba` fails fast at call time with the raised `ValueError` (the
spec's `ConfigurationError`), returning no probabilities. -/
theorem C8_predict_proba_raises {V F : Type} (tp : TypeProblem)
    (itf : Interface) (exp : ℚ → ℚ) (nn : V → F → List ℚ) (var : V)
    (features : List F)
    (h : tp = .regression ∨ tp = .reinforcement_learning) :
    predict_proba tp itf exp nn var features =
      .error (.valueError predictProbaMsg) ∧
    raisedValueError (predict_proba tp itf exp nn var features) = true := by
  rcases h with h | h <;> subst h <;> exact ⟨rfl, rfl⟩

/-- Claim C8 witness: concrete regression call. -/
theorem C8_predict_proba_raises_witness :
    (TypeProblem.regression = TypeProblem.regression ∨
      TypeProblem.regression = TypeProblem.reinforcement_learning) ∧
    (predict_proba .regression .autograd id
        (fun (_ : Unit) (_ : ℚ) => [1]) () [0] =
      .error (.valueError predictProbaMsg) ∧
    raisedValueError (predict_proba .regression .autograd id
        (fun (_ : Unit) (_ : ℚ) => [1]) () [0]) = true) :=
  ⟨Or.inl rfl,
    C8_predict_proba_raises .regression .autograd id
      (fun (_ : Unit) (_ : ℚ) => [1]) () [0] (Or.inl rfl)⟩

/-- Claim C9: for a `type_problem` that is neither classification nor
multiclassification, `predict` returns the raw per-sample circuit
evaluations unchanged, with no thresholding or softmax applied. -/
theorem C9_predict_raw_passthrough {V F : Type} (tp : TypeProblem)
    (exp : ℚ → ℚ) (nn : V → F → List ℚ) (var : V) (features : List F)
    (h1 : tp ≠ .classification) (h2 : tp ≠ .multiclassification) :
    predict tp exp nn var features =
      .arr (features.map (fun x => nn var x)) := by
  cases tp <;> first
    | rfl
    | exact absurd rfl h1
    | exact absurd rfl h2

/-- Claim C9 witness: concrete regression call returns the raw outputs. -/
theorem C9_predict_raw_passthrough_witness :
    (TypeProblem.regression ≠ TypeProblem.classification) ∧
    (TypeProblem.regression ≠ TypeProblem.multiclassification) ∧
    predict .regression id (fun (_ : Unit) (_ : ℚ) => [3]) () [0, 7] =
      .arr [[3], [3]] :=
  ⟨by decide, by decide,
    C9_predict_raw_passthrough .regression id
      (fun (_ : Unit) (_ : ℚ) => [3]) () [0, 7]
      (by decide) (by decide)⟩

/-- Claim C10: for classification, `predict_proba` returns exactly
`0.5 + 0.5 * output` elementwise, and such a value lies in `[0, 1]` exactly
when the raw circuit output lies in `[-1, 1]`. -/
theorem C10_predict_proba_classification {V F : Type} (itf : Interface)
    (exp : ℚ → ℚ) (nn : V → F → List ℚ) (var : V) (features : List F) :
    predict_proba .classification itf exp nn var features =
      .ok ((features.map (fun x => nn var x)).map (fun row =>
        row.map (fun o => 1/2 + 1/2 * o))) ∧
    ∀ o : ℚ, (0 ≤ 1/2 + 1/2 * o ∧ 1/2 + 1/2 * o ≤ 1) ↔
      (-1 ≤ o ∧ o ≤ 1) := by
  refine ⟨rfl, fun o => ?_⟩
  constructor
  · rintro ⟨h0, h1⟩
    constructor <;> linarith
  · rintro ⟨h0, h1⟩
    constructor <;> linarith

/-- Claim C10 witness: a concrete classification call with raw output 1/3
returns 1/2 + 1/2 * (1/3), which lies in [0, 1]. -/
theorem C10_predict_proba_classification_witness :
    predict_proba .classification .autograd id
        (fun (_ : Unit) (_ : ℚ) => [1/3]) () [0] =
      .ok [[1/2 + 1/2 * (1/3)]] ∧
    (0 ≤ (1/2 : ℚ) + 1/2 * (1/3) ∧ (1/2 : ℚ) + 1/2 * (1/3) ≤ 1) :=
  ⟨(C10_predict_proba_classification .autograd id
      (fun (_ : Unit) (_ : ℚ) => [1/3]) () [0]).1,
    ((C10_predict_proba_classification .autograd id
      (fun (_ : Unit) (_ : ℚ) => [1/3]) () [0]).2 (1/3)).mpr
      ⟨by norm_num, by norm_num⟩⟩

/-! ## Gradient step executor (`step`, lines 219-271) -/

/-- Result of one `step` call: the source returns either the bare updated
parameters (the `return var` at line 271) or the pair `(var, norm)` inside
the autograd branches. -/
inductive StepReturn (P : Type)
  | justVar (v : P)
  | withNorm (v : P) (normOfGrad : ℚ)
  deriving DecidableEq

/-- Squared Euclidean norm of a gradient vector.  `np.linalg.norm` is the
square root of this quantity, and two gradients have equal norms exactly
when they have equal squared norms, so claims about which point the
returned norm is taken at are stated on the square, keeping every scalar
rational. -/
def normSq (g : List ℚ) : ℚ :=
  (g.map (fun x => x * x)).sum

/-- Code of `step`, autograd default branch (lines 248-256).
`objective_cost` is the cost closure over the current batch; `optStep` is
`self.optimizer.step` and `gradient` is pennylane's `get_gradient`, both
external collaborators.  The source first reassigns
`var = self.optimizer.step(objective_cost, var)` and only then, when
`norm_grad` is set, evaluates `get_gradient(objective_cost)` at that
reassigned `var`: the returned norm is taken at the post-step parameters. -/
def step_autograd_default
    (optStep : (List ℚ → ℚ) → List ℚ → List ℚ)
    (gradient : (List ℚ → ℚ) → List ℚ → List ℚ)
    (objective_cost : List ℚ → ℚ)
    (var : List ℚ) (norm_grad : Bool) : StepReturn (List ℚ) :=
  let var := optStep objective_cost var
  if norm_grad then
    .withNorm var (normSq (gradient objective_cost var))
  else
    .justVar var

/-- Ordered per-layer parameter arrays, each flattened to its scalars. -/
abbrev Layers := List (List ℚ)

/-- Code of `step`, autograd layer-wise branch (lines 229-246).  The
`requires_grad` flags (`requiresGradFlags`, true exactly at
`selectedLayer iteration num_layers`) are written onto the layers; the
optimizer step (`optStep`, receiving those flags: pennylane updates only
arguments with `requires_grad = True` and treats the rest as frozen, their
gradient contribution forced to zero) produces the new layers, which the
source then packs with `np.array(var)`.  When `norm_grad` is set,
`get_gradient(objective_cost)` is evaluated at that packed post-step
`var`. -/
def step_autograd_layerwise
    (optStep : (Layers → ℚ) → List Bool → Layers → Layers)
    (gradient : (Layers → ℚ) → Layers → Layers)
    (objective_cost : Layers → ℚ)
    (iteration num_layers : ℕ)
    (var : Layers) (norm_grad : Bool) : StepReturn Layers :=
  let flags := requiresGradFlags iteration num_layers var.length
  let var := optStep objective_cost flags var
  if norm_grad then
    .withNorm var (normSq (gradient objective_cost var).flatten)
  else
    .justVar var

/-- tf-side parameter representation: one `tf.Variable` tensor, or the list
of per-layer variables of the CV case — distinguished by the `isinstance`
check at line 265. -/
inductive TfParams
  | singleVar (t : List ℚ)
  | multiVar (ts : List (List ℚ))
  deriving DecidableEq, Repr

/-- Code of `step`, tf branch (lines 258-271).  `tape.gradient` yields one
gradient per tensor (`tapeGradient`; a singleton list when `var` is a lone
`tf.Variable`), and `optimizer.apply_gradients` applies the per-tensor
update rule (`apply_gradients`) pairwise in place.  The branch consults
`norm_grad` nowhere and ends at the plain `return var`: it never produces
a `(var, norm)` pair. -/
def step_tf
    (tapeGradient : (TfParams → ℚ) → TfParams → List (List ℚ))
    (apply_gradients : List ℚ → List ℚ → List ℚ)
    (objective_cost : TfParams → ℚ)
    (var : TfParams) (norm_grad : Bool) : StepReturn TfParams :=
  let updated : TfParams :=
    match var with
    | .singleVar t =>
      .singleVar (apply_gradients
        ((tapeGradient objective_cost var).headD []) t)
    | .multiVar ts =>
      .multiVar (List.zipWith apply_gradients
        (tapeGradient objective_cost var) ts)
  .justVar updated

/-! ## Theorems for C4 and C5 -/

/-- Claim C4 (counterexample): a concrete autograd default-mode call — cost
`v ↦ Σ v_i²`, its true gradient `v ↦ 2 v`, optimizer update `v ↦ (4/5) v`
(gradient descent at learning rate 1/10), starting parameters `[1]` — where
`step` returns squared gradient norm `64/25`, the value at the post-step
parameters `[4/5]`, while the squared gradient norm at the pre-step
parameters `[1]` is `4`.  The returned norm is therefore not the norm at
the parameters passed in. -/
theorem C4_counterexample_grad_norm_not_pre_step :
    step_autograd_default
        (fun _ v => v.map (fun x => (4/5) * x))
        (fun _ v => v.map (fun x => 2 * x))
        (fun v => (v.map (fun x => x * x)).sum)
        [1] true =
      .withNorm [4/5] (64/25) ∧
    normSq ([(1 : ℚ)].map (fun x => 2 * x)) = 4 ∧
    (64/25 : ℚ) ≠ 4 := by
  refine ⟨by norm_num [step_autograd_default, normSq], ?_, by norm_num⟩
  norm_num [normSq]

/-- Claim C4 (amended): with the autograd backend and `norm_grad` set, both
modes of `step` return as second component the (squared) Euclidean norm of
the gradient of the batch cost evaluated at the post-step parameters — the
result of the optimizer update — not at the parameters passed in. -/
theorem C4_grad_norm_at_post_step_params
    (optStepD : (List ℚ → ℚ) → List ℚ → List ℚ)
    (gradientD : (List ℚ → ℚ) → List ℚ → List ℚ)
    (costD : List ℚ → ℚ) (varD : List ℚ)
    (optStepL : (Layers → ℚ) → List Bool → Layers → Layers)
    (gradientL : (Layers → ℚ) → Layers → Layers)
    (costL : Layers → ℚ) (iteration num_layers : ℕ) (varL : Layers) :
    step_autograd_default optStepD gradientD costD varD true =
      .withNorm (optStepD costD varD)
        (normSq (gradientD costD (optStepD costD varD))) ∧
    step_autograd_layerwise optStepL gradientL costL iteration num_layers
        varL true =
      .withNorm
        (optStepL costL (requiresGradFlags iteration num_layers varL.length)
          varL)
        (normSq (gradientL costL
          (optStepL costL (requiresGradFlags iteration num_layers varL.length)
            varL)).flatten) :=
  ⟨rfl, rfl⟩

/-- Claim C5 (failing input): under the tf interface with `norm_grad = true`
— exactly how `fit` (line 320) always invokes `step`, unpacking
`var, norm_g = self.step(..., True)` — `step` returns only the bare
parameters, never a `(new_parameters, grad_norm)` pair, for the
single-tensor and multi-tensor representations alike.  The two concrete
evaluations exhibit this, and the last conjunct shows every tf call lands
in the pairless `justVar` shape. -/
theorem C5_step_tf_returns_no_pair :
    step_tf (fun _ _ => [[2]])
        (fun g t => List.zipWith (fun gi ti => ti - (1/10) * gi) g t)
        (fun _ => 0) (.singleVar [1]) true =
      .justVar (.singleVar [4/5]) ∧
    step_tf (fun _ _ => [[2], [4]])
        (fun g t => List.zipWith (fun gi ti => ti - (1/10) * gi) g t)
        (fun _ => 0) (.multiVar [[1], [2]]) true =
      .justVar (.multiVar [[4/5], [8/5]]) ∧
    ∀ (tapeGradient : (TfParams → ℚ) → TfParams → List (List ℚ))
      (apply_gradients : List ℚ → List ℚ → List ℚ)
      (objective_cost : TfParams → ℚ) (var : TfParams) (norm_grad : Bool),
      ∃ v, step_tf tapeGradient apply_gradients objective_cost var
        norm_grad = .justVar v := by
  refine ⟨by norm_num [step_tf], by norm_num [step_tf], ?_⟩
  intro tapeGradient apply_gradients objective_cost var norm_grad
  cases var <;> exact ⟨_, rfl⟩

/-! ## Training loop (`fit`, lines 273-377) -/

/-- Configuration and collaborators of one `fit` call.  `stepFn` is the
gradient step executor already bound to the batch drawn at the given
iteration (the batch draw of lines 310-316 only selects the data the step
sees); `valCost` is `self.cost(val_features, val_labels, var)`; `update` is
`self.early_stopper.update`, and `getBestVar` is
`self.early_stopper.get_best_var()`.  `hasVal` records
`val_features is not None`, `hasEarlyStopper` the truthiness of
`self.early_stopper`, and `patience` is `self.early_stopper_patience`
(these attributes live on the base class, outside src/; they are
opaque data here). -/
structure FitConfig (V : Type) where
  built : Bool
  max_iterations : ℕ
  snapshot_frequency : ℕ
  hasVal : Bool
  hasEarlyStopper : Bool
  patience : ℕ
  stepFn : ℕ → V → V
  valCost : V → ℚ
  update : ℚ → V → Bool
  getBestVar : V

/-- Observable state of the training loop: the iteration counter and current
parameters, plus counters and records of the events the claims speak about
(gradient steps performed, periodic and best snapshots written, whether the
early stopper signalled, and the iteration values at which
`early_stopper.update` was invoked). -/
structure FitState (V : Type) where
  iteration : ℕ
  var : V
  stepsDone : ℕ
  periodicSnapshots : ℕ
  bestSnapshots : ℕ
  stopped : Bool
  updateCalls : List ℕ

/-- Code of one pass of the `while` body of `fit` (lines 308-369), in source
order: the gradient step (lines 318-320, always with `norm_grad = True`);
the early-stopper consultation (lines 328-336), guarded by
`val_features is not None`, `self.early_stopper` and
`self.iteration > 2 * self.early_stopper_patience`, and fed the post-step
parameters; the periodic snapshot (lines 348-353), written when
`snapshot_frequency > 0` divides the current iteration; then either the
rollback `var = self.early_stopper.get_best_var()` with the iteration
counter left unchanged (lines 359-364) or the increment
`self.iteration += 1` (line 366).  Logging and the plotter callback mutate
nothing modelled here. -/
def fitStep {V : Type} (cfg : FitConfig V) (st : FitState V) : FitState V :=
  let var := cfg.stepFn st.iteration st.var
  let invoke := cfg.hasVal && cfg.hasEarlyStopper &&
    decide (2 * cfg.patience < st.iteration)
  let stopping_criterion := invoke && cfg.update (cfg.valCost var) var
  { iteration := if stopping_criterion then st.iteration else st.iteration + 1
    var := if stopping_criterion then cfg.getBestVar else var
    stepsDone := st.stepsDone + 1
    periodicSnapshots :=
      if 0 < cfg.snapshot_frequency ∧
          st.iteration % cfg.snapshot_frequency = 0 then
        st.periodicSnapshots + 1
      else st.periodicSnapshots
    bestSnapshots := st.bestSnapshots
    stopped := stopping_criterion
    updateCalls :=
      if invoke then st.updateCalls ++ [st.iteration] else st.updateCalls }

/-- Code of the `while` loop of `fit` (line 308):
`while not stopping_criterion and self.iteration < self.max_iterations`.
`fuel` bounds the number of passes; every pass either advances the
iteration counter or raises the stopping flag, which ends the loop at the
next guard check, so `max_iterations + 1` passes always suffice. -/
def fitLoop {V : Type} (cfg : FitConfig V) : ℕ → FitState V → FitState V
  | 0, st => st
  | fuel + 1, st =>
    if st.stopped = true ∨ cfg.max_iterations ≤ st.iteration then st
    else fitLoop cfg fuel (fitStep cfg st)

/-- Loop portion of `fit`: counter reset to 0 (line 302), the loop, and the
unconditional final best snapshot `self.snapshot(is_best=True)`
(line 372). -/
def fitBody {V : Type} (cfg : FitConfig V) (var0 : V) : FitState V :=
  let st := fitLoop cfg (cfg.max_iterations + 1)
    { iteration := 0, var := var0, stepsDone := 0, periodicSnapshots := 0,
      bestSnapshots := 0, stopped := false, updateCalls := [] }
  { st with bestSnapshots := st.bestSnapshots + 1 }

/-- Code of `fit` (lines 273-377): the guard on `self.built` (lines 290-291)
raises a `ValueError` before any work; otherwise the loop body runs to
completion. -/
def fit {V : Type} (cfg : FitConfig V) (var0 : V) :
    Except PyError (FitState V) :=
  if cfg.built = false then
    .error (.valueError "Build the model before fitting any data.")
  else
    .ok (fitBody cfg var0)

/-! ## Loop invariants -/

/-- The loop never writes a best snapshot: only the final
`self.snapshot(is_best=True)` after the loop does. -/
lemma fitLoop_bestSnapshots {V : Type} (cfg : FitConfig V) (fuel : ℕ) :
    ∀ st : FitState V,
      (fitLoop cfg fuel st).bestSnapshots = st.bestSnapshots := by
  induction fuel with
  | zero => intro st; simp [fitLoop]
  | succ fuel ih =>
    intro st
    rw [fitLoop]
    split
    · rfl
    · rw [ih]
      rfl

/-- With `snapshot_frequency = 0` the periodic-snapshot branch never
fires. -/
lemma fitLoop_periodic_zero {V : Type} (cfg : FitConfig V)
    (hs : cfg.snapshot_frequency = 0) (fuel : ℕ) :
    ∀ st : FitState V,
      (fitLoop cfg fuel st).periodicSnapshots = st.periodicSnapshots := by
  induction fuel with
  | zero => intro st; simp [fitLoop]
  | succ fuel ih =>
    intro st
    rw [fitLoop]
    split
    · rfl
    · rw [ih]
      simp [fitStep, hs]

/-- With no validation data the pass leaves the stopping flag down,
advances the iteration counter and performs one gradient step. -/
lemma fitStep_noVal {V : Type} (cfg : FitConfig V) (st : FitState V)
    (h : cfg.hasVal = false) :
    (fitStep cfg st).stopped = false ∧
    (fitStep cfg st).iteration = st.iteration + 1 ∧
    (fitStep cfg st).stepsDone = st.stepsDone + 1 := by
  refine ⟨?_, ?_, rfl⟩ <;> simp [fitStep, h]

/-- With no validation data the loop runs one gradient step per remaining
iteration, stopping only at the `max_iterations` ceiling. -/
lemma fitLoop_stepsDone_noVal {V : Type} (cfg : FitConfig V)
    (h : cfg.hasVal = false) (fuel : ℕ) :
    ∀ st : FitState V, st.stopped = false →
      (fitLoop cfg fuel st).stepsDone =
        st.stepsDone + min fuel (cfg.max_iterations - st.iteration) := by
  induction fuel with
  | zero => intro st _; simp [fitLoop]
  | succ fuel ih =>
    intro st hstop
    rw [fitLoop]
    by_cases hle : cfg.max_iterations ≤ st.iteration
    · rw [if_pos (Or.inr hle)]
      have hz : cfg.max_iterations - st.iteration = 0 :=
        Nat.sub_eq_zero_of_le hle
      simp [hz]
    · rw [if_neg (by simp [hstop, hle])]
      rw [ih (fitStep cfg st) (fitStep_noVal cfg st h).1]
      rw [(fitStep_noVal cfg st h).2.2, (fitStep_noVal cfg st h).2.1]
      omega

/-- One pass preserves the early-stopper bookkeeping invariants: every
recorded `update` call happened with validation data present, an early
stopper built, and at an iteration strictly beyond `2 * patience`; and if
the pass raised the stopping flag, the parameters were rolled back to
`get_best_var()` and the iteration counter was left at the value recorded
by that very `update` call. -/
lemma fitStep_guard {V : Type} (cfg : FitConfig V) (st : FitState V)
    (h1 : ∀ i ∈ st.updateCalls,
      cfg.hasVal = true ∧ cfg.hasEarlyStopper = true ∧
        2 * cfg.patience < i) :
    (∀ i ∈ (fitStep cfg st).updateCalls,
      cfg.hasVal = true ∧ cfg.hasEarlyStopper = true ∧
        2 * cfg.patience < i) ∧
    ((fitStep cfg st).stopped = true →
      (fitStep cfg st).var = cfg.getBestVar ∧
      (fitStep cfg st).updateCalls.getLast? =
        some (fitStep cfg st).iteration) := by
  cases hinv : (cfg.hasVal && cfg.hasEarlyStopper &&
      decide (2 * cfg.patience < st.iteration)) with
  | false =>
    constructor
    · intro i hi
      simp only [fitStep, hinv, Bool.false_and, if_false,
        Bool.false_eq_true] at hi
      exact h1 i hi
    · intro hstop
      simp [fitStep, hinv] at hstop
  | true =>
    have hd := hinv
    simp only [Bool.and_eq_true, decide_eq_true_eq] at hd
    constructor
    · intro i hi
      simp only [fitStep, hinv, if_true, List.mem_append,
        List.mem_singleton] at hi
      rcases hi with hi | hi
      · exact h1 i hi
      · exact ⟨hd.1.1, hd.1.2, hi ▸ hd.2⟩
    · intro hstop
      cases hu : cfg.update
          (cfg.valCost (cfg.stepFn st.iteration st.var))
          (cfg.stepFn st.iteration st.var) with
      | false => simp [fitStep, hinv, hu] at hstop
      | true => constructor <;> simp [fitStep, hinv, hu]

/-- The loop preserves the early-stopper bookkeeping invariants of
`fitStep_guard`. -/
lemma fitLoop_guard {V : Type} (cfg : FitConfig V) (fuel : ℕ) :
    ∀ st : FitState V,
      (∀ i ∈ st.updateCalls,
        cfg.hasVal = true ∧ cfg.hasEarlyStopper = true ∧
          2 * cfg.patience < i) →
      (st.stopped = true → st.var = cfg.getBestVar ∧
        st.updateCalls.getLast? = some st.iteration) →
      (∀ i ∈ (fitLoop cfg fuel st).updateCalls,
        cfg.hasVal = true ∧ cfg.hasEarlyStopper = true ∧
          2 * cfg.patience < i) ∧
      ((fitLoop cfg fuel st).stopped = true →
        (fitLoop cfg fuel st).var = cfg.getBestVar ∧
        (fitLoop cfg fuel st).updateCalls.getLast? =
          some (fitLoop cfg fuel st).iteration) := by
  induction fuel with
  | zero => intro st h1 h2; exact ⟨h1, h2⟩
  | succ fuel ih =>
    intro st h1 h2
    rw [fitLoop]
    split
    · exact ⟨h1, h2⟩
    · exact ih (fitStep cfg st) (fitStep_guard cfg st h1).1
        (fitStep_guard cfg st h1).2

/-! ## Theorems for C6 and C7 -/

/-- Claim C6: when the model is built, `fit` runs the loop and — on every
loop exit, stopped early or not — writes exactly one final best snapshot;
and with `max_iterations = 10`, no validation data and
`snapshot_frequency = 0` it performs exactly 10 gradient steps and zero
periodic snapshots. -/
theorem C6_fit_step_and_snapshot_counts {V : Type} (cfg : FitConfig V)
    (var0 : V) (hb : cfg.built = true) :
    fit cfg var0 = .ok (fitBody cfg var0) ∧
    (fitBody cfg var0).bestSnapshots = 1 ∧
    (cfg.max_iterations = 10 → cfg.hasVal = false →
      cfg.snapshot_frequency = 0 →
      (fitBody cfg var0).stepsDone = 10 ∧
      (fitBody cfg var0).periodicSnapshots = 0) := by
  refine ⟨by simp [fit, hb], ?_, fun h10 hv hs => ⟨?_, ?_⟩⟩
  · show (fitLoop cfg _ _).bestSnapshots + 1 = 1
    rw [fitLoop_bestSnapshots]
  · show (fitLoop cfg _ _).stepsDone = 10
    rw [fitLoop_stepsDone_noVal cfg hv _ _ rfl]
    simp [h10]
  · show (fitLoop cfg _ _).periodicSnapshots = 0
    rw [fitLoop_periodic_zero cfg hs]

/-- Concrete configuration exercising claim C6. -/
def cfgC6 : FitConfig ℕ :=
  { built := true, max_iterations := 10, snapshot_frequency := 0,
    hasVal := false, hasEarlyStopper := false, patience := 0,
    stepFn := fun _ v => v + 1, valCost := fun _ => 0,
    update := fun _ _ => false, getBestVar := 0 }

/-- Claim C6 witness: the hypotheses hold of `cfgC6` and the counts come
out as claimed. -/
theorem C6_fit_step_and_snapshot_counts_witness :
    cfgC6.built = true ∧ cfgC6.max_iterations = 10 ∧
    cfgC6.hasVal = false ∧ cfgC6.snapshot_frequency = 0 ∧
    fit cfgC6 0 = .ok (fitBody cfgC6 0) ∧
    (fitBody cfgC6 0).bestSnapshots = 1 ∧
    (fitBody cfgC6 0).stepsDone = 10 ∧
    (fitBody cfgC6 0).periodicSnapshots = 0 := by
  have h := C6_fit_step_and_snapshot_counts cfgC6 0 rfl
  exact ⟨rfl, rfl, rfl, rfl, h.1, h.2.1, (h.2.2 rfl rfl rfl).1,
    (h.2.2 rfl rfl rfl).2⟩

/-- Claim C7: during `fit`, every invocation of `early_stopper.update`
happened with validation data present and at an iteration strictly greater
than `2 * patience`; and whenever the update signalled stop, the final
parameters are `early_stopper.get_best_var()` and the loop terminated with
the iteration counter still at the value of that signalling round. -/
theorem C7_early_stopper_guard_and_rollback {V : Type} (cfg : FitConfig V)
    (var0 : V) :
    (∀ i ∈ (fitBody cfg var0).updateCalls,
      cfg.hasVal = true ∧ cfg.hasEarlyStopper = true ∧
        2 * cfg.patience < i) ∧
    ((fitBody cfg var0).stopped = true →
      (fitBody cfg var0).var = cfg.getBestVar ∧
      (fitBody cfg var0).updateCalls.getLast? =
        some (fitBody cfg var0).iteration) := by
  have h := fitLoop_guard cfg (cfg.max_iterations + 1)
    { iteration := 0, var := var0, stepsDone := 0, periodicSnapshots := 0,
      bestSnapshots := 0, stopped := false, updateCalls := [] }
    (by intro i hi; simp at hi) (by intro h; simp at h)
  exact h

/-- Concrete configuration exercising claim C7: the early stopper signals
stop at the first invocation, which happens at iteration 1. -/
def cfgC7 : FitConfig ℕ :=
  { built := true, max_iterations := 3, snapshot_frequency := 0,
    hasVal := true, hasEarlyStopper := true, patience := 0,
    stepFn := fun _ v => v + 1, valCost := fun _ => 0,
    update := fun _ _ => true, getBestVar := 99 }

/-- Claim C7 witness: under `cfgC7` the stopper fires at iteration 1, the
parameters are rolled back to 99, and the final iteration counter is the
signalling round's. -/
theorem C7_early_stopper_guard_and_rollback_witness :
    (1 ∈ (fitBody cfgC7 0).updateCalls ∧
      cfgC7.hasVal = true ∧ cfgC7.hasEarlyStopper = true ∧
      2 * cfgC7.patience < 1) ∧
    ((fitBody cfgC7 0).stopped = true ∧
      (fitBody cfgC7 0).var = cfgC7.getBestVar ∧
      (fitBody cfgC7 0).updateCalls.getLast? =
        some (fitBody cfgC7 0).iteration) := by
  have h := C7_early_stopper_guard_and_rollback cfgC7 0
  exact ⟨⟨by decide, h.1 1 (by decide)⟩,
    ⟨by decide, h.2 (by decide)⟩⟩

end PQNN
